import Mathlib

/-!
Verification of the kanban board serialization layer
(`examples-integrations/python/kanban_models.py` and `example.py`).

The Python module defines four plain record types (TimerEntry, KanbanTask,
ColumnMetadata, KanbanData) with pure conversion functions `to_dict`
producing a JSON object graph, and `to_json` encoding the graph as text via
`json.dumps(..., indent=indent, ensure_ascii=False)`.

Python dictionaries preserve insertion order, so a JSON object is embedded
as a `List (String × JValue)`; `None` stored as a dictionary value encodes
to JSON `null`.
-/

/-- Generic JSON-compatible value, the codomain of the `to_dict` conversions. -/
inductive JValue where
  | null : JValue
  | bool : Bool → JValue
  | int : Int → JValue
  | str : String → JValue
  | arr : List JValue → JValue
  | obj : List (String × JValue) → JValue
deriving Repr

/-- The state of a kanban column (`class ColumnState(str, Enum)`). -/
inductive ColumnState where
  | TODO
  | IN_PROGRESS
  | PENDING
  | DONE
deriving Repr, DecidableEq

/-- The string payload of each `ColumnState` member (`.value` in Python). -/
def ColumnState.value : ColumnState → String
  | .TODO => "todo"
  | .IN_PROGRESS => "in-progress"
  | .PENDING => "pending"
  | .DONE => "done"

/-- The sort field for column sorting (`class SortField(str, Enum)`). -/
inductive SortField where
  | UPDATE_DATE_TIME
  | DUE_DATE
  | TITLE
  | TIME_SPENT
deriving Repr, DecidableEq

/-- The string payload of each `SortField` member. -/
def SortField.value : SortField → String
  | .UPDATE_DATE_TIME => "updateDateTime"
  | .DUE_DATE => "dueDate"
  | .TITLE => "title"
  | .TIME_SPENT => "timeSpent"

/-- The sort order (`class SortOrder(str, Enum)`). -/
inductive SortOrder where
  | ASC
  | DESC
deriving Repr, DecidableEq

/-- The string payload of each `SortOrder` member. -/
def SortOrder.value : SortOrder → String
  | .ASC => "asc"
  | .DESC => "desc"

/-- The view mode for the kanban board (`class KanbanView(str, Enum)`). -/
inductive KanbanView where
  | HORIZONTAL
  | VERTICAL
  | TABLE
deriving Repr, DecidableEq

/-- The string payload of each `KanbanView` member. -/
def KanbanView.value : KanbanView → String
  | .HORIZONTAL => "horizontal"
  | .VERTICAL => "vertical"
  | .TABLE => "table"

/-- Timer entry record (`@dataclass class TimerEntry`). -/
structure TimerEntry where
  start_time : String
  end_time : Option String
deriving Repr

/-- Embedding of `TimerEntry.to_dict`: the Python body is a dictionary
literal that always contains both keys; a `None` value encodes to JSON
`null`. -/
def TimerEntry.to_dict (e : TimerEntry) : List (String × JValue) :=
  [("startTime", JValue.str e.start_time),
   ("endTime", match e.end_time with
     | some s => JValue.str s
     | none => JValue.null)]

/-- Task record (`@dataclass class KanbanTask`). -/
structure KanbanTask where
  task : String
  status : Option String
  timer_entries : Option (List TimerEntry)
  target_time : Option String
  tags : Option (List String)
  due_date : Option String
  update_date_time : Option String
deriving Repr

/-- Embedding of `KanbanTask.to_dict`: starts from a dictionary holding
`task`, then conditionally inserts each optional field (guard
`is not None`) under its wire key, in source order.  Insertion into a
Python dictionary appends at the end, embedded here as list append. -/
def KanbanTask.to_dict (t : KanbanTask) : List (String × JValue) :=
  [("task", JValue.str t.task)]
  ++ (match t.status with
      | some s => [("status", JValue.str s)]
      | none => [])
  ++ (match t.timer_entries with
      | some es => [("timerEntries", JValue.arr (es.map (fun e => JValue.obj e.to_dict)))]
      | none => [])
  ++ (match t.target_time with
      | some s => [("targetTime", JValue.str s)]
      | none => [])
  ++ (match t.tags with
      | some l => [("tags", JValue.arr (l.map JValue.str))]
      | none => [])
  ++ (match t.due_date with
      | some s => [("dueDate", JValue.str s)]
      | none => [])
  ++ (match t.update_date_time with
      | some s => [("updateDateTime", JValue.str s)]
      | none => [])

/-- Column metadata record (`@dataclass class ColumnMetadata`). -/
structure ColumnMetadata where
  name : String
  state : ColumnState
  icon : Option String
  sort_field : Option SortField
  sort_order : Option SortOrder
  manual_sort : Option Bool
deriving Repr

/-- Embedding of `ColumnMetadata.to_dict`: `name` and `state` (as
`self.state.value`) always, then each optional field conditionally, in
source order. -/
def ColumnMetadata.to_dict (c : ColumnMetadata) : List (String × JValue) :=
  [("name", JValue.str c.name),
   ("state", JValue.str c.state.value)]
  ++ (match c.icon with
      | some s => [("icon", JValue.str s)]
      | none => [])
  ++ (match c.sort_field with
      | some f => [("sortField", JValue.str f.value)]
      | none => [])
  ++ (match c.sort_order with
      | some o => [("sortOrder", JValue.str o.value)]
      | none => [])
  ++ (match c.manual_sort with
      | some b => [("manualSort", JValue.bool b)]
      | none => [])

/-- Top-level board record (`@dataclass class KanbanData`).  The Python
`column_widths: Dict[str, int]` is an insertion-ordered mapping, embedded
as an association list. -/
structure KanbanData where
  tasks : Option (List KanbanTask)
  columns : Option (List String)
  column_metadata : Option (List ColumnMetadata)
  collapsed_columns : Option (List String)
  view : Option KanbanView
  slim_mode : Option Bool
  column_widths : Option (List (String × Int))
deriving Repr

/-- Embedding of `KanbanData.to_dict`: starts from an empty dictionary,
then conditionally inserts each field under its wire key, in source
order. -/
def KanbanData.to_dict (d : KanbanData) : List (String × JValue) :=
  (match d.tasks with
   | some ts => [("tasks", JValue.arr (ts.map (fun t => JValue.obj t.to_dict)))]
   | none => [])
  ++ (match d.columns with
      | some cs => [("columns", JValue.arr (cs.map JValue.str))]
      | none => [])
  ++ (match d.column_metadata with
      | some ms => [("columnMetadata", JValue.arr (ms.map (fun m => JValue.obj m.to_dict)))]
      | none => [])
  ++ (match d.collapsed_columns with
      | some cs => [("collapsedColumns", JValue.arr (cs.map JValue.str))]
      | none => [])
  ++ (match d.view with
      | some v => [("view", JValue.str v.value)]
      | none => [])
  ++ (match d.slim_mode with
      | some b => [("slimMode", JValue.bool b)]
      | none => [])
  ++ (match d.column_widths with
      | some w => [("columnWidths", JValue.obj (w.map (fun p => (p.1, JValue.int p.2))))]
      | none => [])

/-- Hexadecimal digit character for a value below 16 (lowercase, as Python). -/
def hexDigit (n : Nat) : Char :=
  if n < 10 then Char.ofNat (48 + n) else Char.ofNat (87 + n)

/-- Four-digit lowercase hexadecimal rendering used by the `\uXXXX` escapes. -/
def hex4 (n : Nat) : String :=
  String.mk [hexDigit (n / 4096 % 16), hexDigit (n / 256 % 16),
             hexDigit (n / 16 % 16), hexDigit (n % 16)]

/-- Character escaping of `json.dumps` with `ensure_ascii=False`: only the
backslash, the double quote and control characters below 0x20 are escaped
(short escapes for the usual seven, `\uXXXX` otherwise); every other
character, non-ASCII included, passes through literally. -/
def escapeChar (c : Char) : String :=
  if c = '\\' then "\\\\"
  else if c = '\"' then "\\\""
  else if c = '\x08' then "\\b"
  else if c = '\x0c' then "\\f"
  else if c = '\n' then "\\n"
  else if c = '\r' then "\\r"
  else if c = '\t' then "\\t"
  else if c.toNat < 32 then "\\u" ++ hex4 c.toNat
  else String.singleton c

/-- JSON string literal encoding (`ensure_ascii=False`). -/
def encodeString (s : String) : String :=
  "\"" ++ String.join (s.data.map escapeChar) ++ "\""

/-- Indentation prefix: `ind` spaces per level, `lvl` levels deep. -/
def indentStr (ind lvl : Nat) : String :=
  String.mk (List.replicate (ind * lvl) ' ')

mutual

/-- Embedding of `json.dumps(value, indent=ind, ensure_ascii=False)` at
nesting level `lvl`: with an indent, Python separates items by a comma plus
a newline, keys from values by a colon and a space, and closes brackets on
their own line at the enclosing level; empty containers stay on one line. -/
def dumpsVal (ind lvl : Nat) : JValue → String
  | JValue.null => "null"
  | JValue.bool b => cond b "true" "false"
  | JValue.int i => toString i
  | JValue.str s => encodeString s
  | JValue.arr [] => "[]"
  | JValue.arr (x :: xs) =>
      "[\n" ++ dumpsItems ind (lvl + 1) (x :: xs) ++ "\n" ++ indentStr ind lvl ++ "]"
  | JValue.obj [] => "\x7b\x7d"
  | JValue.obj (f :: fs) =>
      "\x7b\n" ++ dumpsFields ind (lvl + 1) (f :: fs) ++ "\n" ++ indentStr ind lvl ++ "\x7d"

/-- Comma-and-newline separated array items, each on its own indented line. -/
def dumpsItems (ind lvl : Nat) : List JValue → String
  | [] => ""
  | [x] => indentStr ind lvl ++ dumpsVal ind lvl x
  | x :: y :: ys =>
      indentStr ind lvl ++ dumpsVal ind lvl x ++ ",\n" ++ dumpsItems ind lvl (y :: ys)

/-- Comma-and-newline separated object members, each on its own indented line. -/
def dumpsFields (ind lvl : Nat) : List (String × JValue) → String
  | [] => ""
  | [(k, v)] => indentStr ind lvl ++ encodeString k ++ ": " ++ dumpsVal ind lvl v
  | (k, v) :: g :: gs =>
      indentStr ind lvl ++ encodeString k ++ ": " ++ dumpsVal ind lvl v ++ ",\n"
        ++ dumpsFields ind lvl (g :: gs)

end

/-- Top-level text encoding, starting at nesting level 0. -/
def pyJsonDumps (v : JValue) (ind : Nat) : String :=
  dumpsVal ind 0 v

/-- Embedding of `KanbanData.to_json(self, indent)`:
`json.dumps(self.to_dict(), indent=indent, ensure_ascii=False)`. -/
def KanbanData.to_json (d : KanbanData) (indent : Nat) : String :=
  pyJsonDumps (JValue.obj d.to_dict) indent

/-- Invocation of `to_json` with the `indent` parameter left at its
declared default of 2. -/
def KanbanData.to_json_default (d : KanbanData) : String :=
  d.to_json 2

/-- Embedding of the "simple format" of `example.py` (`main`, the
`simple_json` value): the JSON value passed to `json.dumps` is the bare
list comprehension `[task.to_dict() for task in simple_tasks]`, with no
wrapping object. -/
def simple_format (ts : List KanbanTask) : JValue :=
  JValue.arr (ts.map (fun t => JValue.obj t.to_dict))

/-- Text of the simple format as printed by `example.py`
(`indent=2, ensure_ascii=False`). -/
def simple_format_json (ts : List KanbanTask) : String :=
  pyJsonDumps (simple_format ts) 2

/-! ### Lookup characterization of each record's conversion

One lemma per record field: what `List.lookup` of the field's wire key
returns on the `to_dict` output, for a set field and for an unset one. -/

theorem TimerEntry.lookup_startTime (e : TimerEntry) :
    e.to_dict.lookup "startTime" = some (JValue.str e.start_time) := rfl

theorem TimerEntry.lookup_endTime_some (e : TimerEntry) (s : String)
    (h : e.end_time = some s) : e.to_dict.lookup "endTime" = some (JValue.str s) := by
  obtain ⟨a, et⟩ := e
  cases h
  rfl

theorem TimerEntry.lookup_endTime_none (e : TimerEntry) (h : e.end_time = none) :
    e.to_dict.lookup "endTime" = some JValue.null := by
  obtain ⟨a, et⟩ := e
  cases h
  rfl

theorem KanbanTask.lookup_task (t : KanbanTask) :
    t.to_dict.lookup "task" = some (JValue.str t.task) := rfl

theorem KanbanTask.lookup_status_some (t : KanbanTask) (s : String)
    (h : t.status = some s) : t.to_dict.lookup "status" = some (JValue.str s) := by
  obtain ⟨a, st, te, tt, tg, dd, ud⟩ := t
  cases h
  rfl

theorem KanbanTask.lookup_timer_entries_some (t : KanbanTask) (es : List TimerEntry)
    (h : t.timer_entries = some es) :
    t.to_dict.lookup "timerEntries"
      = some (JValue.arr (es.map (fun e => JValue.obj e.to_dict))) := by
  obtain ⟨a, st, te, tt, tg, dd, ud⟩ := t
  cases h
  cases st <;> rfl

theorem KanbanTask.lookup_target_time_some (t : KanbanTask) (s : String)
    (h : t.target_time = some s) : t.to_dict.lookup "targetTime" = some (JValue.str s) := by
  obtain ⟨a, st, te, tt, tg, dd, ud⟩ := t
  cases h
  cases st <;> cases te <;> rfl

theorem KanbanTask.lookup_tags_some (t : KanbanTask) (l : List String)
    (h : t.tags = some l) :
    t.to_dict.lookup "tags" = some (JValue.arr (l.map JValue.str)) := by
  obtain ⟨a, st, te, tt, tg, dd, ud⟩ := t
  cases h
  cases st <;> cases te <;> cases tt <;> rfl

theorem KanbanTask.lookup_due_date_some (t : KanbanTask) (s : String)
    (h : t.due_date = some s) : t.to_dict.lookup "dueDate" = some (JValue.str s) := by
  obtain ⟨a, st, te, tt, tg, dd, ud⟩ := t
  cases h
  cases st <;> cases te <;> cases tt <;> cases tg <;> rfl

theorem KanbanTask.lookup_update_date_time_some (t : KanbanTask) (s : String)
    (h : t.update_date_time = some s) :
    t.to_dict.lookup "updateDateTime" = some (JValue.str s) := by
  obtain ⟨a, st, te, tt, tg, dd, ud⟩ := t
  cases h
  cases st <;> cases te <;> cases tt <;> cases tg <;> cases dd <;> rfl

theorem KanbanTask.lookup_status_none (t : KanbanTask) (h : t.status = none) :
    t.to_dict.lookup "status" = none := by
  obtain ⟨a, st, te, tt, tg, dd, ud⟩ := t
  cases h
  cases te <;> cases tt <;> cases tg <;> cases dd <;> cases ud <;> rfl

theorem KanbanTask.lookup_timer_entries_none (t : KanbanTask)
    (h : t.timer_entries = none) : t.to_dict.lookup "timerEntries" = none := by
  obtain ⟨a, st, te, tt, tg, dd, ud⟩ := t
  cases h
  cases st <;> cases tt <;> cases tg <;> cases dd <;> cases ud <;> rfl

theorem KanbanTask.lookup_target_time_none (t : KanbanTask)
    (h : t.target_time = none) : t.to_dict.lookup "targetTime" = none := by
  obtain ⟨a, st, te, tt, tg, dd, ud⟩ := t
  cases h
  cases st <;> cases te <;> cases tg <;> cases dd <;> cases ud <;> rfl

theorem KanbanTask.lookup_tags_none (t : KanbanTask) (h : t.tags = none) :
    t.to_dict.lookup "tags" = none := by
  obtain ⟨a, st, te, tt, tg, dd, ud⟩ := t
  cases h
  cases st <;> cases te <;> cases tt <;> cases dd <;> cases ud <;> rfl

theorem KanbanTask.lookup_due_date_none (t : KanbanTask) (h : t.due_date = none) :
    t.to_dict.lookup "dueDate" = none := by
  obtain ⟨a, st, te, tt, tg, dd, ud⟩ := t
  cases h
  cases st <;> cases te <;> cases tt <;> cases tg <;> cases ud <;> rfl

theorem KanbanTask.lookup_update_date_time_none (t : KanbanTask)
    (h : t.update_date_time = none) : t.to_dict.lookup "updateDateTime" = none := by
  obtain ⟨a, st, te, tt, tg, dd, ud⟩ := t
  cases h
  cases st <;> cases te <;> cases tt <;> cases tg <;> cases dd <;> rfl

theorem ColumnMetadata.lookup_name (c : ColumnMetadata) :
    c.to_dict.lookup "name" = some (JValue.str c.name) := rfl

theorem ColumnMetadata.lookup_state (c : ColumnMetadata) :
    c.to_dict.lookup "state" = some (JValue.str c.state.value) := rfl

theorem ColumnMetadata.lookup_icon_some (c : ColumnMetadata) (s : String)
    (h : c.icon = some s) : c.to_dict.lookup "icon" = some (JValue.str s) := by
  obtain ⟨n, st, ic, sf, so, ms⟩ := c
  cases h
  rfl

theorem ColumnMetadata.lookup_sort_field_some (c : ColumnMetadata) (f : SortField)
    (h : c.sort_field = some f) :
    c.to_dict.lookup "sortField" = some (JValue.str f.value) := by
  obtain ⟨n, st, ic, sf, so, ms⟩ := c
  cases h
  cases ic <;> rfl

theorem ColumnMetadata.lookup_sort_order_some (c : ColumnMetadata) (o : SortOrder)
    (h : c.sort_order = some o) :
    c.to_dict.lookup "sortOrder" = some (JValue.str o.value) := by
  obtain ⟨n, st, ic, sf, so, ms⟩ := c
  cases h
  cases ic <;> cases sf <;> rfl

theorem ColumnMetadata.lookup_manual_sort_some (c : ColumnMetadata) (b : Bool)
    (h : c.manual_sort = some b) :
    c.to_dict.lookup "manualSort" = some (JValue.bool b) := by
  obtain ⟨n, st, ic, sf, so, ms⟩ := c
  cases h
  cases ic <;> cases sf <;> cases so <;> rfl

theorem ColumnMetadata.lookup_icon_none (c : ColumnMetadata) (h : c.icon = none) :
    c.to_dict.lookup "icon" = none := by
  obtain ⟨n, st, ic, sf, so, ms⟩ := c
  cases h
  cases sf <;> cases so <;> cases ms <;> rfl

theorem ColumnMetadata.lookup_sort_field_none (c : ColumnMetadata)
    (h : c.sort_field = none) : c.to_dict.lookup "sortField" = none := by
  obtain ⟨n, st, ic, sf, so, ms⟩ := c
  cases h
  cases ic <;> cases so <;> cases ms <;> rfl

theorem ColumnMetadata.lookup_sort_order_none (c : ColumnMetadata)
    (h : c.sort_order = none) : c.to_dict.lookup "sortOrder" = none := by
  obtain ⟨n, st, ic, sf, so, ms⟩ := c
  cases h
  cases ic <;> cases sf <;> cases ms <;> rfl

theorem ColumnMetadata.lookup_manual_sort_none (c : ColumnMetadata)
    (h : c.manual_sort = none) : c.to_dict.lookup "manualSort" = none := by
  obtain ⟨n, st, ic, sf, so, ms⟩ := c
  cases h
  cases ic <;> cases sf <;> cases so <;> rfl

theorem KanbanData.lookup_tasks_some (d : KanbanData) (ts : List KanbanTask)
    (h : d.tasks = some ts) :
    d.to_dict.lookup "tasks"
      = some (JValue.arr (ts.map (fun t => JValue.obj t.to_dict))) := by
  obtain ⟨dt, dc, dm, dl, dv, ds, dw⟩ := d
  cases h
  rfl

theorem KanbanData.lookup_columns_some (d : KanbanData) (cs : List String)
    (h : d.columns = some cs) :
    d.to_dict.lookup "columns" = some (JValue.arr (cs.map JValue.str)) := by
  obtain ⟨dt, dc, dm, dl, dv, ds, dw⟩ := d
  cases h
  cases dt <;> rfl

theorem KanbanData.lookup_column_metadata_some (d : KanbanData)
    (ms : List ColumnMetadata) (h : d.column_metadata = some ms) :
    d.to_dict.lookup "columnMetadata"
      = some (JValue.arr (ms.map (fun m => JValue.obj m.to_dict))) := by
  obtain ⟨dt, dc, dm, dl, dv, ds, dw⟩ := d
  cases h
  cases dt <;> cases dc <;> rfl

theorem KanbanData.lookup_collapsed_columns_some (d : KanbanData) (cs : List String)
    (h : d.collapsed_columns = some cs) :
    d.to_dict.lookup "collapsedColumns" = some (JValue.arr (cs.map JValue.str)) := by
  obtain ⟨dt, dc, dm, dl, dv, ds, dw⟩ := d
  cases h
  cases dt <;> cases dc <;> cases dm <;> rfl

theorem KanbanData.lookup_view_some (d : KanbanData) (v : KanbanView)
    (h : d.view = some v) : d.to_dict.lookup "view" = some (JValue.str v.value) := by
  obtain ⟨dt, dc, dm, dl, dv, ds, dw⟩ := d
  cases h
  cases dt <;> cases dc <;> cases dm <;> cases dl <;> rfl

theorem KanbanData.lookup_slim_mode_some (d : KanbanData) (b : Bool)
    (h : d.slim_mode = some b) : d.to_dict.lookup "slimMode" = some (JValue.bool b) := by
  obtain ⟨dt, dc, dm, dl, dv, ds, dw⟩ := d
  cases h
  cases dt <;> cases dc <;> cases dm <;> cases dl <;> cases dv <;> rfl

theorem KanbanData.lookup_column_widths_some (d : KanbanData)
    (w : List (String × Int)) (h : d.column_widths = some w) :
    d.to_dict.lookup "columnWidths"
      = some (JValue.obj (w.map (fun p => (p.1, JValue.int p.2)))) := by
  obtain ⟨dt, dc, dm, dl, dv, ds, dw⟩ := d
  cases h
  cases dt <;> cases dc <;> cases dm <;> cases dl <;> cases dv <;> cases ds <;> rfl

theorem KanbanData.lookup_tasks_none (d : KanbanData) (h : d.tasks = none) :
    d.to_dict.lookup "tasks" = none := by
  obtain ⟨dt, dc, dm, dl, dv, ds, dw⟩ := d
  cases h
  cases dc <;> cases dm <;> cases dl <;> cases dv <;> cases ds <;> cases dw <;> rfl

theorem KanbanData.lookup_columns_none (d : KanbanData) (h : d.columns = none) :
    d.to_dict.lookup "columns" = none := by
  obtain ⟨dt, dc, dm, dl, dv, ds, dw⟩ := d
  cases h
  cases dt <;> cases dm <;> cases dl <;> cases dv <;> cases ds <;> cases dw <;> rfl

theorem KanbanData.lookup_column_metadata_none (d : KanbanData)
    (h : d.column_metadata = none) : d.to_dict.lookup "columnMetadata" = none := by
  obtain ⟨dt, dc, dm, dl, dv, ds, dw⟩ := d
  cases h
  cases dt <;> cases dc <;> cases dl <;> cases dv <;> cases ds <;> cases dw <;> rfl

theorem KanbanData.lookup_collapsed_columns_none (d : KanbanData)
    (h : d.collapsed_columns = none) : d.to_dict.lookup "collapsedColumns" = none := by
  obtain ⟨dt, dc, dm, dl, dv, ds, dw⟩ := d
  cases h
  cases dt <;> cases dc <;> cases dm <;> cases dv <;> cases ds <;> cases dw <;> rfl

theorem KanbanData.lookup_view_none (d : KanbanData) (h : d.view = none) :
    d.to_dict.lookup "view" = none := by
  obtain ⟨dt, dc, dm, dl, dv, ds, dw⟩ := d
  cases h
  cases dt <;> cases dc <;> cases dm <;> cases dl <;> cases ds <;> cases dw <;> rfl

theorem KanbanData.lookup_slim_mode_none (d : KanbanData) (h : d.slim_mode = none) :
    d.to_dict.lookup "slimMode" = none := by
  obtain ⟨dt, dc, dm, dl, dv, ds, dw⟩ := d
  cases h
  cases dt <;> cases dc <;> cases dm <;> cases dl <;> cases dv <;> cases dw <;> rfl

theorem KanbanData.lookup_column_widths_none (d : KanbanData)
    (h : d.column_widths = none) : d.to_dict.lookup "columnWidths" = none := by
  obtain ⟨dt, dc, dm, dl, dv, ds, dw⟩ := d
  cases h
  cases dt <;> cases dc <;> cases dm <;> cases dl <;> cases dv <;> cases ds <;> rfl

/-! ### Plain characters pass through the text encoder unchanged -/

theorem escapeChar_plain (c : Char) (h32 : 32 ≤ c.toNat)
    (hbs : c ≠ '\\') (hq : c ≠ '\"') : escapeChar c = String.singleton c := by
  have h8 : c ≠ '\x08' := by rintro rfl; exact absurd h32 (by decide)
  have hc : c ≠ '\x0c' := by rintro rfl; exact absurd h32 (by decide)
  have hn : c ≠ '\n' := by rintro rfl; exact absurd h32 (by decide)
  have hr : c ≠ '\r' := by rintro rfl; exact absurd h32 (by decide)
  have ht : c ≠ '\t' := by rintro rfl; exact absurd h32 (by decide)
  have hlt : ¬ c.toNat < 32 := by omega
  unfold escapeChar
  rw [if_neg hbs, if_neg hq, if_neg h8, if_neg hc, if_neg hn, if_neg hr, if_neg ht,
    if_neg hlt]

theorem flatten_map_singleton (l : List Char) : (l.map (fun c => [c])).flatten = l := by
  induction l with
  | nil => rfl
  | cons c cs ih => simp [ih]

theorem encodeString_plain (s : String)
    (h : ∀ c ∈ s.data, 32 ≤ c.toNat ∧ c ≠ '\\' ∧ c ≠ '\"') :
    encodeString s = "\"" ++ s ++ "\"" := by
  have hmap : s.data.map escapeChar = s.data.map String.singleton :=
    List.map_congr_left
      (fun c hc => escapeChar_plain c (h c hc).1 (h c hc).2.1 (h c hc).2.2)
  unfold encodeString
  rw [hmap, String.join_eq]
  have h2 : ((s.data.map String.singleton).map String.data) = s.data.map (fun c => [c]) := by
    simp [String.singleton]
  rw [h2, flatten_map_singleton]

/-! ### The claims -/

/-- C1, counterexample to the claim as stated: a TimerEntry whose optional
`end_time` is unset still produces the wire key endTime in its `to_dict`
output, bound to JSON null — the key is present, not omitted. -/
theorem C1_counterexample :
    (TimerEntry.to_dict ⟨"2025-01-01T10:00:00Z", none⟩).lookup "endTime"
        = some JValue.null ∧
    (TimerEntry.to_dict ⟨"2025-01-01T10:00:00Z", none⟩).lookup "endTime" ≠ none :=
  ⟨rfl, Option.some_ne_none JValue.null⟩

/-- C1 (amended): for Task, ColumnMetadata and BoardDocument, every unset
optional field's wire key is absent from the `to_dict` output (never present
as null, an empty object or an empty array); TimerEntry is the exception:
its endTime wire key is always present, bound to JSON null when `end_time`
is unset. -/
theorem C1_unset_omission_amended (e : TimerEntry) (t : KanbanTask)
    (c : ColumnMetadata) (d : KanbanData) :
    (e.end_time = none → e.to_dict.lookup "endTime" = some JValue.null) ∧
    (t.status = none → t.to_dict.lookup "status" = none) ∧
    (t.timer_entries = none → t.to_dict.lookup "timerEntries" = none) ∧
    (t.target_time = none → t.to_dict.lookup "targetTime" = none) ∧
    (t.tags = none → t.to_dict.lookup "tags" = none) ∧
    (t.due_date = none → t.to_dict.lookup "dueDate" = none) ∧
    (t.update_date_time = none → t.to_dict.lookup "updateDateTime" = none) ∧
    (c.icon = none → c.to_dict.lookup "icon" = none) ∧
    (c.sort_field = none → c.to_dict.lookup "sortField" = none) ∧
    (c.sort_order = none → c.to_dict.lookup "sortOrder" = none) ∧
    (c.manual_sort = none → c.to_dict.lookup "manualSort" = none) ∧
    (d.tasks = none → d.to_dict.lookup "tasks" = none) ∧
    (d.columns = none → d.to_dict.lookup "columns" = none) ∧
    (d.column_metadata = none → d.to_dict.lookup "columnMetadata" = none) ∧
    (d.collapsed_columns = none → d.to_dict.lookup "collapsedColumns" = none) ∧
    (d.view = none → d.to_dict.lookup "view" = none) ∧
    (d.slim_mode = none → d.to_dict.lookup "slimMode" = none) ∧
    (d.column_widths = none → d.to_dict.lookup "columnWidths" = none) :=
  ⟨TimerEntry.lookup_endTime_none e,
   KanbanTask.lookup_status_none t,
   KanbanTask.lookup_timer_entries_none t,
   KanbanTask.lookup_target_time_none t,
   KanbanTask.lookup_tags_none t,
   KanbanTask.lookup_due_date_none t,
   KanbanTask.lookup_update_date_time_none t,
   ColumnMetadata.lookup_icon_none c,
   ColumnMetadata.lookup_sort_field_none c,
   ColumnMetadata.lookup_sort_order_none c,
   ColumnMetadata.lookup_manual_sort_none c,
   KanbanData.lookup_tasks_none d,
   KanbanData.lookup_columns_none d,
   KanbanData.lookup_column_metadata_none d,
   KanbanData.lookup_collapsed_columns_none d,
   KanbanData.lookup_view_none d,
   KanbanData.lookup_slim_mode_none d,
   KanbanData.lookup_column_widths_none d⟩

/-- Witness for C1 (amended) at concrete all-unset records. -/
theorem C1_unset_omission_amended_witness :
    (TimerEntry.to_dict ⟨"2025-01-01T10:00:00Z", none⟩).lookup "endTime"
        = some JValue.null ∧
    (KanbanTask.to_dict ⟨"Write docs", none, none, none, none, none, none⟩).lookup "tags"
        = none ∧
    (ColumnMetadata.to_dict ⟨"Doing", ColumnState.TODO, none, none, none, none⟩).lookup "icon"
        = none ∧
    (KanbanData.to_dict ⟨none, none, none, none, none, none, none⟩).lookup "view"
        = none := by
  obtain ⟨h1, h2, h3, h4, h5, h6, h7, h8, h9, h10, h11, h12, h13, h14, h15, h16, h17, h18⟩ :=
    C1_unset_omission_amended ⟨"2025-01-01T10:00:00Z", none⟩
      ⟨"Write docs", none, none, none, none, none, none⟩
      ⟨"Doing", ColumnState.TODO, none, none, none, none⟩
      ⟨none, none, none, none, none, none, none⟩
  exact ⟨h1 rfl, h5 rfl, h8 rfl, h16 rfl⟩

/-- C2: every renamed field (startTime, endTime, timerEntries, targetTime,
dueDate, updateDateTime, sortField, sortOrder, manualSort, columnMetadata,
collapsedColumns, slimMode, columnWidths), when set, is emitted under
exactly its camelCase wire key, and every field not in the renaming table
(task, status, tags, name, state, icon, view, columns) is emitted under its
unchanged internal name. -/
theorem C2_wire_key_renaming (e : TimerEntry) (t : KanbanTask)
    (c : ColumnMetadata) (d : KanbanData) :
    (e.to_dict.lookup "startTime" = some (JValue.str e.start_time)) ∧
    (∀ s, e.end_time = some s → e.to_dict.lookup "endTime" = some (JValue.str s)) ∧
    (∀ l, t.timer_entries = some l →
      t.to_dict.lookup "timerEntries"
        = some (JValue.arr (l.map (fun x => JValue.obj x.to_dict)))) ∧
    (∀ s, t.target_time = some s →
      t.to_dict.lookup "targetTime" = some (JValue.str s)) ∧
    (∀ s, t.due_date = some s → t.to_dict.lookup "dueDate" = some (JValue.str s)) ∧
    (∀ s, t.update_date_time = some s →
      t.to_dict.lookup "updateDateTime" = some (JValue.str s)) ∧
    (∀ f, c.sort_field = some f →
      c.to_dict.lookup "sortField" = some (JValue.str f.value)) ∧
    (∀ o, c.sort_order = some o →
      c.to_dict.lookup "sortOrder" = some (JValue.str o.value)) ∧
    (∀ b, c.manual_sort = some b →
      c.to_dict.lookup "manualSort" = some (JValue.bool b)) ∧
    (∀ l, d.column_metadata = some l →
      d.to_dict.lookup "columnMetadata"
        = some (JValue.arr (l.map (fun m => JValue.obj m.to_dict)))) ∧
    (∀ l, d.collapsed_columns = some l →
      d.to_dict.lookup "collapsedColumns" = some (JValue.arr (l.map JValue.str))) ∧
    (∀ b, d.slim_mode = some b →
      d.to_dict.lookup "slimMode" = some (JValue.bool b)) ∧
    (∀ w, d.column_widths = some w →
      d.to_dict.lookup "columnWidths"
        = some (JValue.obj (w.map (fun p => (p.1, JValue.int p.2))))) ∧
    (t.to_dict.lookup "task" = some (JValue.str t.task)) ∧
    (∀ s, t.status = some s → t.to_dict.lookup "status" = some (JValue.str s)) ∧
    (∀ l, t.tags = some l →
      t.to_dict.lookup "tags" = some (JValue.arr (l.map JValue.str))) ∧
    (c.to_dict.lookup "name" = some (JValue.str c.name)) ∧
    (∀ s, c.icon = some s → c.to_dict.lookup "icon" = some (JValue.str s)) ∧
    (c.to_dict.lookup "state" = some (JValue.str c.state.value)) ∧
    (∀ v, d.view = some v → d.to_dict.lookup "view" = some (JValue.str v.value)) ∧
    (∀ l, d.columns = some l →
      d.to_dict.lookup "columns" = some (JValue.arr (l.map JValue.str))) :=
  ⟨TimerEntry.lookup_startTime e,
   TimerEntry.lookup_endTime_some e,
   KanbanTask.lookup_timer_entries_some t,
   KanbanTask.lookup_target_time_some t,
   KanbanTask.lookup_due_date_some t,
   KanbanTask.lookup_update_date_time_some t,
   ColumnMetadata.lookup_sort_field_some c,
   ColumnMetadata.lookup_sort_order_some c,
   ColumnMetadata.lookup_manual_sort_some c,
   KanbanData.lookup_column_metadata_some d,
   KanbanData.lookup_collapsed_columns_some d,
   KanbanData.lookup_slim_mode_some d,
   KanbanData.lookup_column_widths_some d,
   KanbanTask.lookup_task t,
   KanbanTask.lookup_status_some t,
   KanbanTask.lookup_tags_some t,
   ColumnMetadata.lookup_name c,
   ColumnMetadata.lookup_icon_some c,
   ColumnMetadata.lookup_state c,
   KanbanData.lookup_view_some d,
   KanbanData.lookup_columns_some d⟩

/-- Witness for C2 at concrete records with several fields set. -/
theorem C2_wire_key_renaming_witness :
    (KanbanTask.to_dict ⟨"Write docs", some "To Do", none, none, none,
        some "2025-01-01T00:00:00Z", some "2025-01-02T00:00:00Z"⟩).lookup "dueDate"
      = some (JValue.str "2025-01-01T00:00:00Z") ∧
    (ColumnMetadata.to_dict ⟨"Doing", ColumnState.IN_PROGRESS, none,
        some SortField.DUE_DATE, some SortOrder.ASC, some true⟩).lookup "sortField"
      = some (JValue.str "dueDate") ∧
    (KanbanData.to_dict ⟨none, none, none, none, some KanbanView.TABLE,
        some false, none⟩).lookup "slimMode" = some (JValue.bool false) := by
  obtain ⟨h1, h2, h3, h4, h5, h6, h7, h8, h9, h10, h11, h12, h13, h14, h15, h16,
      h17, h18, h19, h20, h21⟩ :=
    C2_wire_key_renaming ⟨"2025-01-01T10:00:00Z", none⟩
      ⟨"Write docs", some "To Do", none, none, none,
        some "2025-01-01T00:00:00Z", some "2025-01-02T00:00:00Z"⟩
      ⟨"Doing", ColumnState.IN_PROGRESS, none, some SortField.DUE_DATE,
        some SortOrder.ASC, some true⟩
      ⟨none, none, none, none, some KanbanView.TABLE, some false, none⟩
  exact ⟨h5 _ rfl, h7 _ rfl, h12 _ rfl⟩

/-- C3: for every record type and every optional field, a caller-set
field — including one set to an explicitly empty sequence — is emitted
under its wire key, mapped to the recursively converted value (an empty
JSON array for an empty sequence). -/
theorem C3_explicit_value_emission (e : TimerEntry) (t : KanbanTask)
    (c : ColumnMetadata) (d : KanbanData) :
    (∀ s, e.end_time = some s → e.to_dict.lookup "endTime" = some (JValue.str s)) ∧
    (∀ s, t.status = some s → t.to_dict.lookup "status" = some (JValue.str s)) ∧
    (∀ l, t.timer_entries = some l →
      t.to_dict.lookup "timerEntries"
        = some (JValue.arr (l.map (fun x => JValue.obj x.to_dict)))) ∧
    (∀ s, t.target_time = some s →
      t.to_dict.lookup "targetTime" = some (JValue.str s)) ∧
    (∀ l, t.tags = some l →
      t.to_dict.lookup "tags" = some (JValue.arr (l.map JValue.str))) ∧
    (∀ s, t.due_date = some s → t.to_dict.lookup "dueDate" = some (JValue.str s)) ∧
    (∀ s, t.update_date_time = some s →
      t.to_dict.lookup "updateDateTime" = some (JValue.str s)) ∧
    (∀ s, c.icon = some s → c.to_dict.lookup "icon" = some (JValue.str s)) ∧
    (∀ f, c.sort_field = some f →
      c.to_dict.lookup "sortField" = some (JValue.str f.value)) ∧
    (∀ o, c.sort_order = some o →
      c.to_dict.lookup "sortOrder" = some (JValue.str o.value)) ∧
    (∀ b, c.manual_sort = some b →
      c.to_dict.lookup "manualSort" = some (JValue.bool b)) ∧
    (∀ l, d.tasks = some l →
      d.to_dict.lookup "tasks"
        = some (JValue.arr (l.map (fun x => JValue.obj x.to_dict)))) ∧
    (∀ l, d.columns = some l →
      d.to_dict.lookup "columns" = some (JValue.arr (l.map JValue.str))) ∧
    (∀ l, d.column_metadata = some l →
      d.to_dict.lookup "columnMetadata"
        = some (JValue.arr (l.map (fun m => JValue.obj m.to_dict)))) ∧
    (∀ l, d.collapsed_columns = some l →
      d.to_dict.lookup "collapsedColumns" = some (JValue.arr (l.map JValue.str))) ∧
    (∀ v, d.view = some v → d.to_dict.lookup "view" = some (JValue.str v.value)) ∧
    (∀ b, d.slim_mode = some b →
      d.to_dict.lookup "slimMode" = some (JValue.bool b)) ∧
    (∀ w, d.column_widths = some w →
      d.to_dict.lookup "columnWidths"
        = some (JValue.obj (w.map (fun p => (p.1, JValue.int p.2))))) :=
  ⟨TimerEntry.lookup_endTime_some e,
   KanbanTask.lookup_status_some t,
   KanbanTask.lookup_timer_entries_some t,
   KanbanTask.lookup_target_time_some t,
   KanbanTask.lookup_tags_some t,
   KanbanTask.lookup_due_date_some t,
   KanbanTask.lookup_update_date_time_some t,
   ColumnMetadata.lookup_icon_some c,
   ColumnMetadata.lookup_sort_field_some c,
   ColumnMetadata.lookup_sort_order_some c,
   ColumnMetadata.lookup_manual_sort_some c,
   KanbanData.lookup_tasks_some d,
   KanbanData.lookup_columns_some d,
   KanbanData.lookup_column_metadata_some d,
   KanbanData.lookup_collapsed_columns_some d,
   KanbanData.lookup_view_some d,
   KanbanData.lookup_slim_mode_some d,
   KanbanData.lookup_column_widths_some d⟩

/-- Witness for C3 at concrete records: explicitly empty sequences come out
as the empty JSON array, and set scalar fields of the other record types
come out under their wire keys. -/
theorem C3_explicit_value_emission_witness :
    (KanbanTask.to_dict ⟨"Write docs", none, some [], none, some [], none,
        none⟩).lookup "tags" = some (JValue.arr []) ∧
    (KanbanTask.to_dict ⟨"Write docs", none, some [], none, some [], none,
        none⟩).lookup "timerEntries" = some (JValue.arr []) ∧
    (KanbanData.to_dict ⟨some [], none, none, none, none, some true,
        none⟩).lookup "tasks" = some (JValue.arr []) ∧
    (KanbanData.to_dict ⟨some [], none, none, none, none, some true,
        none⟩).lookup "slimMode" = some (JValue.bool true) ∧
    (TimerEntry.to_dict ⟨"2025-01-01T10:00:00Z",
        some "2025-01-01T12:00:00Z"⟩).lookup "endTime"
      = some (JValue.str "2025-01-01T12:00:00Z") ∧
    (ColumnMetadata.to_dict ⟨"Doing", ColumnState.TODO, some "📋", none, none,
        some false⟩).lookup "icon" = some (JValue.str "📋") ∧
    (ColumnMetadata.to_dict ⟨"Doing", ColumnState.TODO, some "📋", none, none,
        some false⟩).lookup "manualSort" = some (JValue.bool false) := by
  obtain ⟨h1, h2, h3, h4, h5, h6, h7, h8, h9, h10, h11, h12, h13, h14, h15, h16,
      h17, h18⟩ :=
    C3_explicit_value_emission
      ⟨"2025-01-01T10:00:00Z", some "2025-01-01T12:00:00Z"⟩
      ⟨"Write docs", none, some [], none, some [], none, none⟩
      ⟨"Doing", ColumnState.TODO, some "📋", none, none, some false⟩
      ⟨some [], none, none, none, none, some true, none⟩
  exact ⟨h5 [] rfl, h3 [] rfl, h12 [] rfl, h17 true rfl, h1 _ rfl, h8 _ rfl,
    h11 false rfl⟩

/-- C4: every enumeration-typed field serializes to its associated
lowercase/camelCase string tag (drawn from the documented closed sets) and
never to an internal symbolic name; in particular ColumnState.IN_PROGRESS
serializes to the string "in-progress". -/
theorem C4_enum_string_serialization (c : ColumnMetadata) (d : KanbanData) :
    (c.to_dict.lookup "state" = some (JValue.str c.state.value)) ∧
    (∀ f, c.sort_field = some f →
      c.to_dict.lookup "sortField" = some (JValue.str f.value)) ∧
    (∀ o, c.sort_order = some o →
      c.to_dict.lookup "sortOrder" = some (JValue.str o.value)) ∧
    (∀ v, d.view = some v → d.to_dict.lookup "view" = some (JValue.str v.value)) ∧
    (∀ s : ColumnState, s.value ∈ ["todo", "in-progress", "pending", "done"]) ∧
    (∀ f : SortField, f.value ∈ ["updateDateTime", "dueDate", "title", "timeSpent"]) ∧
    (∀ o : SortOrder, o.value ∈ ["asc", "desc"]) ∧
    (∀ v : KanbanView, v.value ∈ ["horizontal", "vertical", "table"]) ∧
    (ColumnState.IN_PROGRESS.value = "in-progress") := by
  refine ⟨ColumnMetadata.lookup_state c,
    ColumnMetadata.lookup_sort_field_some c,
    ColumnMetadata.lookup_sort_order_some c,
    KanbanData.lookup_view_some d,
    fun s => ?_, fun f => ?_, fun o => ?_, fun v => ?_, rfl⟩
  · cases s <;> decide
  · cases f <;> decide
  · cases o <;> decide
  · cases v <;> decide

/-- Witness for C4 at concrete enumeration members. -/
theorem C4_enum_string_serialization_witness :
    (ColumnMetadata.to_dict ⟨"Doing", ColumnState.IN_PROGRESS, none,
        some SortField.TIME_SPENT, some SortOrder.DESC, none⟩).lookup "state"
      = some (JValue.str "in-progress") ∧
    (ColumnMetadata.to_dict ⟨"Doing", ColumnState.IN_PROGRESS, none,
        some SortField.TIME_SPENT, some SortOrder.DESC, none⟩).lookup "sortField"
      = some (JValue.str "timeSpent") ∧
    (KanbanData.to_dict ⟨none, none, none, none, some KanbanView.TABLE, none,
        none⟩).lookup "view" = some (JValue.str "table") := by
  obtain ⟨h1, h2, h3, h4, h5, h6, h7, h8, h9⟩ :=
    C4_enum_string_serialization
      ⟨"Doing", ColumnState.IN_PROGRESS, none, some SortField.TIME_SPENT,
        some SortOrder.DESC, none⟩
      ⟨none, none, none, none, some KanbanView.TABLE, none, none⟩
  exact ⟨h1, h2 _ rfl, h4 _ rfl⟩

/-- C5: a Task with task "Write docs", status "To Do", due_date
"2025-01-01T00:00:00Z" and nothing else set converts to exactly the object
with the three pairs task, status, dueDate in field-emission order, and no
timerEntries, targetTime, tags or updateDateTime keys. -/
theorem C5_example_task_exact :
    KanbanTask.to_dict ⟨"Write docs", some "To Do", none, none, none,
        some "2025-01-01T00:00:00Z", none⟩
      = [("task", JValue.str "Write docs"),
         ("status", JValue.str "To Do"),
         ("dueDate", JValue.str "2025-01-01T00:00:00Z")] := rfl

/-- C6: serializing a sequence of Task values directly (the simple format
of example.py) yields a bare JSON array of the tasks' converted objects with
no wrapping object; three Tasks with only task and status set give an array
of three objects, each with exactly the two keys task and status. -/
theorem C6_simple_format_bare_array (n1 s1 n2 s2 n3 s3 : String) :
    simple_format [⟨n1, some s1, none, none, none, none, none⟩,
                   ⟨n2, some s2, none, none, none, none, none⟩,
                   ⟨n3, some s3, none, none, none, none, none⟩]
      = JValue.arr
          [JValue.obj [("task", JValue.str n1), ("status", JValue.str s1)],
           JValue.obj [("task", JValue.str n2), ("status", JValue.str s2)],
           JValue.obj [("task", JValue.str n3), ("status", JValue.str s3)]] := rfl

/-- C7: a BoardDocument with only columns A, B set converts to exactly the
one-pair object mapping columns to the array of the two column names in
order. -/
theorem C7_columns_only_board :
    KanbanData.to_dict ⟨none, some ["A", "B"], none, none, none, none, none⟩
      = [("columns", JValue.arr [JValue.str "A", JValue.str "B"])] := rfl

/-- C8: `to_json` encodes the document with the caller-chosen indentation
width, defaulting to 2, and with an encoding that never escapes characters
at or above the space other than the backslash and the double quote — so
non-ASCII text such as an emoji appears literally in the produced text, as
the concrete board with the clipboard emoji icon shows. -/
theorem C8_to_json_text (d : KanbanData) :
    (KanbanData.to_json_default d = KanbanData.to_json d 2) ∧
    (∀ c : Char, 32 ≤ c.toNat → c ≠ '\\' → c ≠ '\"' →
      escapeChar c = String.singleton c) ∧
    (∀ s : String, (∀ c ∈ s.data, 32 ≤ c.toNat ∧ c ≠ '\\' ∧ c ≠ '\"') →
      encodeString s = "\"" ++ s ++ "\"") ∧
    (KanbanData.to_json ⟨none, none,
        some [⟨"Doing", ColumnState.IN_PROGRESS, some "📋", none, none, none⟩],
        none, none, none, none⟩ 2
      = "\x7b\n  \"columnMetadata\": [\n    \x7b\n      \"name\": \"Doing\",\n      \"state\": \"in-progress\",\n      \"icon\": \"📋\"\n    \x7d\n  ]\n\x7d") :=
  ⟨rfl, escapeChar_plain, encodeString_plain, rfl⟩

/-- Witness for C8 at the clipboard emoji: it passes the character and the
string encoder literally. -/
theorem C8_to_json_text_witness :
    escapeChar '📋' = String.singleton '📋' ∧
    encodeString "📋" = "\"" ++ "📋" ++ "\"" := by
  obtain ⟨h1, h2, h3, h4⟩ := C8_to_json_text ⟨none, none, none, none, none, none, none⟩
  exact ⟨h2 '📋' (by decide) (by decide) (by decide), h3 "📋" (by decide)⟩

/-- C9: every conversion function of the model is deterministic and pure:
equal input records produce equal outputs, for each record's `to_dict`, for
`to_json` at equal indents, and for the simple-format text. -/
theorem C9_pure_determinism :
    (∀ e₁ e₂ : TimerEntry, e₁ = e₂ → e₁.to_dict = e₂.to_dict) ∧
    (∀ t₁ t₂ : KanbanTask, t₁ = t₂ → t₁.to_dict = t₂.to_dict) ∧
    (∀ c₁ c₂ : ColumnMetadata, c₁ = c₂ → c₁.to_dict = c₂.to_dict) ∧
    (∀ d₁ d₂ : KanbanData, d₁ = d₂ → d₁.to_dict = d₂.to_dict) ∧
    (∀ d₁ d₂ : KanbanData, ∀ i₁ i₂ : Nat, d₁ = d₂ → i₁ = i₂ →
      d₁.to_json i₁ = d₂.to_json i₂) ∧
    (∀ l₁ l₂ : List KanbanTask, l₁ = l₂ → simple_format_json l₁ = simple_format_json l₂) :=
  ⟨fun _ _ h => congrArg TimerEntry.to_dict h,
   fun _ _ h => congrArg KanbanTask.to_dict h,
   fun _ _ h => congrArg ColumnMetadata.to_dict h,
   fun _ _ h => congrArg KanbanData.to_dict h,
   fun _ _ _ _ hd hi => hd ▸ hi ▸ rfl,
   fun _ _ h => congrArg simple_format_json h⟩

/-- Witness for C9 at a concrete board and indent. -/
theorem C9_pure_determinism_witness :
    KanbanData.to_json ⟨none, some ["A"], none, none, none, none, none⟩ 2
      = KanbanData.to_json ⟨none, some ["A"], none, none, none, none, none⟩ 2 :=
  C9_pure_determinism.2.2.2.2.1 _ _ 2 2 rfl rfl

/-- C10: the required fields' keys are present in the conversion output of
every input record, whatever the optional fields: task for KanbanTask, name
and state for ColumnMetadata, startTime for TimerEntry. -/
theorem C10_required_keys_present (t : KanbanTask) (c : ColumnMetadata)
    (e : TimerEntry) :
    (t.to_dict.lookup "task" = some (JValue.str t.task)) ∧
    (c.to_dict.lookup "name" = some (JValue.str c.name)) ∧
    (c.to_dict.lookup "state" = some (JValue.str c.state.value)) ∧
    (e.to_dict.lookup "startTime" = some (JValue.str e.start_time)) :=
  ⟨KanbanTask.lookup_task t,
   ColumnMetadata.lookup_name c,
   ColumnMetadata.lookup_state c,
   TimerEntry.lookup_startTime e⟩
